import Mathlib

/-!
Verification of the in-memory banking model of `Assignment_3_part_A.py`.

The Python source is embedded shallowly:
* Python floats become exact rationals `ℚ` (the spec documents floating-point
  behaviour as an unspecified limitation; amount comparisons use the stored
  numeric value directly).
* A `BankAccount` object becomes a record of its four fields.
* Raising an exception becomes returning `some e` together with the state at
  the raise point; since every `raise` in the source happens before any field
  write, the returned state is the input state in every error case.
* The `BankingApp.accounts` dict becomes a map `String → Option BankAccount`;
  an in-place field update on an object held by the dict becomes a pointwise
  update of the map at that object's key.  In this program every `BankAccount`
  passed to an operation is obtained from the dict, and distinct keys hold
  distinct objects, so two resolved accounts alias exactly when their keys are
  equal; the two sequential balance writes of `transfer` are therefore embedded
  as two sequential map updates, which reproduces Python's aliasing behaviour
  when source and target coincide.
-/

namespace Banking

/-- The four concrete subclasses of `BankingException` in the source. -/
inductive BankingException
  | insufficientFunds
  | invalidAmount
  | invalidChoice
  | invalidAccount
deriving DecidableEq, Repr

/-- `BankAccount.__init__` fields (lines 27–40 of the source). -/
structure BankAccount where
  account_number : String
  account_holder : String
  balance : ℚ
  mobile_balance : ℚ
deriving DecidableEq, Repr

/-- `BankAccount.deposit` (lines 42–54): `InvalidAmountError` if `amount <= 0`,
otherwise `self.balance += amount`. -/
def BankAccount.deposit (self : BankAccount) (amount : ℚ) :
    Option BankingException × BankAccount :=
  if amount ≤ 0 then (some .invalidAmount, self)
  else (none, { self with balance := self.balance + amount })

/-- `BankAccount.withdraw` (lines 56–71): `InvalidAmountError` if `amount <= 0`,
`InsufficientFundsError` if `amount > self.balance`, otherwise
`self.balance -= amount`. -/
def BankAccount.withdraw (self : BankAccount) (amount : ℚ) :
    Option BankingException × BankAccount :=
  if amount ≤ 0 then (some .invalidAmount, self)
  else if self.balance < amount then (some .insufficientFunds, self)
  else (none, { self with balance := self.balance - amount })

/-- The `target_account` argument of `BankAccount.transfer` as the Python
caller may pass it: either a `BankAccount` instance, or any other value
(the unit tests pass the string literal `"not_an_account"`). -/
inductive TransferArg
  | account (t : BankAccount)
  | notAccount
deriving DecidableEq, Repr

/-- `BankAccount.transfer` (lines 73–94) for a target object distinct from
`self`: the `isinstance` check comes first (line 86), then
`InvalidAmountError` if `amount <= 0` (line 88), then
`InsufficientFundsError` if `amount > self.balance` (line 90), otherwise
`self.balance -= amount; target_account.balance += amount`. -/
def BankAccount.transfer (self : BankAccount) (target : TransferArg) (amount : ℚ) :
    Option BankingException × BankAccount × TransferArg :=
  match target with
  | .notAccount => (some .invalidAccount, self, target)
  | .account t =>
    if amount ≤ 0 then (some .invalidAmount, self, target)
    else if self.balance < amount then (some .insufficientFunds, self, target)
    else (none, { self with balance := self.balance - amount },
          .account { t with balance := t.balance + amount })

/-- `BankAccount.top_up_mobile` (lines 96–113): `InvalidAmountError` if
`amount <= 0`, `InsufficientFundsError` if `amount > self.balance`, otherwise
`self.balance -= amount; self.mobile_balance += amount`. -/
def BankAccount.top_up_mobile (self : BankAccount) (amount : ℚ) :
    Option BankingException × BankAccount :=
  if amount ≤ 0 then (some .invalidAmount, self)
  else if self.balance < amount then (some .insufficientFunds, self)
  else (none, { self with balance := self.balance - amount,
                          mobile_balance := self.mobile_balance + amount })

/-- `BankAccount.get_balance` (lines 115–117). -/
def BankAccount.get_balance (self : BankAccount) : ℚ := self.balance

/-- `BankAccount.get_mobile_balance` (lines 119–121). -/
def BankAccount.get_mobile_balance (self : BankAccount) : ℚ := self.mobile_balance

/-- The `BankingApp.accounts` dict: a map from account number to the account
object stored under that key. -/
abbrev Accounts := String → Option BankAccount

/-- The seeded dict of `BankingApp.__init__` (lines 132–138). -/
def initAccounts : Accounts := fun id =>
  if id = "1001" then some ⟨"1001", "Alice Smith", 1000, 0⟩
  else if id = "1002" then some ⟨"1002", "Bob Johnson", 1500, 0⟩
  else if id = "1003" then some ⟨"1003", "Charlie Brown", 500, 0⟩
  else none

/-- `BankingApp.get_account` (lines 140–156): `self.accounts.get(n)` followed by
`if not account: raise InvalidAccountError` (a `BankAccount` instance is always
truthy, so the raise fires exactly when the key is absent). -/
def get_account (accounts : Accounts) (account_number : String) :
    Except BankingException BankAccount :=
  match accounts account_number with
  | none => .error .invalidAccount
  | some a => .ok a

/-- Replace the object stored under `id` (the heap effect of in-place mutation
of the object the dict holds at that key). -/
def setAccount (accounts : Accounts) (id : String) (a : BankAccount) : Accounts :=
  fun k => if k = id then some a else accounts k

/-- One in-place write `obj.balance = f obj.balance` on the object stored under
`id`, as a map update. -/
def updBal (accounts : Accounts) (id : String) (f : ℚ → ℚ) : Accounts :=
  fun k =>
    if k = id then (accounts k).map (fun a => { a with balance := f a.balance })
    else accounts k

/-- `BankingApp.process_user_input` (lines 158–204).  The source account is
resolved first; then the choice string is compared against the five operation
names in source order; any other choice raises `InvalidChoiceError`.  The
`amount` parameter is the already-parsed value of `float(data["amount"])`
(parse failures are not domain errors and are outside this model), and
`target_account` is the raw target id string resolved through `get_account`
inside the transfer branch.  Each branch performs the in-place heap effect of
the called `BankAccount` method on the dict; in the transfer branch the target
resolved from the dict is always a `BankAccount` instance, so the method's
`isinstance` guard passes, and the two sequential balance writes are embedded
as two sequential `updBal` updates (faithful also when source and target are
the same key, hence the same object). -/
def process_user_input (accounts : Accounts) (choice : String)
    (account_number : String) (amount : ℚ) (target_account : String) :
    Option BankingException × Accounts :=
  match get_account accounts account_number with
  | .error e => (some e, accounts)
  | .ok account =>
    if choice = "deposit" then
      if amount ≤ 0 then (some .invalidAmount, accounts)
      else (none, setAccount accounts account_number
                    { account with balance := account.balance + amount })
    else if choice = "withdraw" then
      if amount ≤ 0 then (some .invalidAmount, accounts)
      else if account.balance < amount then (some .insufficientFunds, accounts)
      else (none, setAccount accounts account_number
                    { account with balance := account.balance - amount })
    else if choice = "balance" then
      (none, accounts)
    else if choice = "transfer" then
      match get_account accounts target_account with
      | .error e => (some e, accounts)
      | .ok _target =>
        if amount ≤ 0 then (some .invalidAmount, accounts)
        else if account.balance < amount then (some .insufficientFunds, accounts)
        else (none, updBal (updBal accounts account_number (fun b => b - amount))
                      target_account (fun b => b + amount))
    else if choice = "top_up" then
      if amount ≤ 0 then (some .invalidAmount, accounts)
      else if account.balance < amount then (some .insufficientFunds, accounts)
      else (none, setAccount accounts account_number
                    { account with balance := account.balance - amount,
                                   mobile_balance := account.mobile_balance + amount })
    else
      (some .invalidChoice, accounts)

end Banking

namespace Banking

example : (BankAccount.deposit ⟨"12345", "Test User", 1000, 0⟩ 500).2.balance = 1500 := by
  norm_num [BankAccount.deposit]

example : (process_user_input initAccounts "deposit" "1001" 500 "").1 = none := by
  rfl

example :
    ((process_user_input initAccounts "deposit" "1001" 500 "").2 "1001").map
      BankAccount.balance = some 1500 := by
  norm_num [process_user_input, get_account, initAccounts, setAccount]

example : (process_user_input initAccounts "bogus" "1001" 0 "").1 =
    some BankingException.invalidChoice := by
  rfl

example : (process_user_input initAccounts "deposit" "9999" 5 "").1 =
    some BankingException.invalidAccount := by
  rfl

example :
    ((process_user_input initAccounts "transfer" "1001" 300 "1002").2 "1002").map
      BankAccount.balance = some 1800 := by
  repeat first
    | simp [process_user_input, get_account, initAccounts, updBal]
    | norm_num

example :
    ((process_user_input initAccounts "transfer" "1001" 300 "1001").2 "1001").map
      BankAccount.balance = some 1000 := by
  repeat first
    | simp [process_user_input, get_account, initAccounts, updBal]
    | norm_num

end Banking

namespace Banking

/-- Claim C2: for every account and every amount, `withdraw` raises
`InvalidAmountError` if `amount ≤ 0`, raises `InsufficientFundsError` if
`amount > balance`, and otherwise decreases the balance by exactly `amount`. -/
theorem claim_C2_withdraw (a : BankAccount) (amount : ℚ) :
    (amount ≤ 0 → a.withdraw amount = (some BankingException.invalidAmount, a)) ∧
    (0 < amount → a.balance < amount →
      a.withdraw amount = (some BankingException.insufficientFunds, a)) ∧
    (0 < amount → amount ≤ a.balance →
      (a.withdraw amount).1 = none ∧
      ((a.withdraw amount).2).balance = a.balance - amount) := by
  refine ⟨fun h => ?_, fun h1 h2 => ?_, fun h1 h2 => ?_⟩
  · simp [BankAccount.withdraw, h]
  · simp [BankAccount.withdraw, not_le.2 h1, h2]
  · simp [BankAccount.withdraw, not_le.2 h1, not_lt.2 h2]

/-- Concrete instantiation of `claim_C2_withdraw`: Alice's test account at
1000 with the three kinds of input. -/
theorem claim_C2_withdraw_witness :
    ((BankAccount.mk "12345" "Test User" 1000 0).withdraw 500).1 = none ∧
    (((BankAccount.mk "12345" "Test User" 1000 0).withdraw 500).2).balance = 1000 - 500 ∧
    (BankAccount.mk "12345" "Test User" 1000 0).withdraw (-100) =
      (some BankingException.invalidAmount, BankAccount.mk "12345" "Test User" 1000 0) ∧
    (BankAccount.mk "12345" "Test User" 1000 0).withdraw 1500 =
      (some BankingException.insufficientFunds, BankAccount.mk "12345" "Test User" 1000 0) := by
  have h := claim_C2_withdraw (BankAccount.mk "12345" "Test User" 1000 0)
  exact ⟨((h 500).2.2 (by norm_num) (by norm_num)).1,
         ((h 500).2.2 (by norm_num) (by norm_num)).2,
         (h (-100)).1 (by norm_num),
         (h 1500).2.1 (by norm_num) (by norm_num)⟩

/-- Claim C3: a valid transfer between two distinct account objects preserves
the sum of the two cash balances. -/
theorem claim_C3_transfer_conserves (s t : BankAccount) (amount : ℚ)
    (hpos : 0 < amount) (hle : amount ≤ s.balance) :
    ∃ s' t', s.transfer (TransferArg.account t) amount = (none, s', TransferArg.account t') ∧
      s'.balance + t'.balance = s.balance + t.balance := by
  refine ⟨{ s with balance := s.balance - amount },
          { t with balance := t.balance + amount }, ?_, ?_⟩
  · simp [BankAccount.transfer, not_le.2 hpos, not_lt.2 hle]
  · simp only []
    ring

/-- Concrete instantiation of `claim_C3_transfer_conserves`: the unit-test
transfer of 300 from a 1000-balance account to a 500-balance account. -/
theorem claim_C3_transfer_conserves_witness :
    ∃ s' t',
      (BankAccount.mk "12345" "Test User" 1000 0).transfer
          (TransferArg.account (BankAccount.mk "67890" "Target User" 500 0)) 300 =
        (none, s', TransferArg.account t') ∧
      s'.balance + t'.balance =
        (BankAccount.mk "12345" "Test User" 1000 0).balance +
          (BankAccount.mk "67890" "Target User" 500 0).balance :=
  claim_C3_transfer_conserves (BankAccount.mk "12345" "Test User" 1000 0)
    (BankAccount.mk "67890" "Target User" 500 0) 300 (by norm_num) (by norm_num)

/-- Claim C4: for `0 < amount ≤ balance`, `top_up_mobile` moves exactly
`amount` from the cash balance to the mobile-credit balance. -/
theorem claim_C4_top_up (a : BankAccount) (amount : ℚ)
    (hpos : 0 < amount) (hle : amount ≤ a.balance) :
    (a.top_up_mobile amount).1 = none ∧
    ((a.top_up_mobile amount).2).balance = a.balance - amount ∧
    ((a.top_up_mobile amount).2).mobile_balance = a.mobile_balance + amount := by
  simp [BankAccount.top_up_mobile, not_le.2 hpos, not_lt.2 hle]

/-- Concrete instantiation of `claim_C4_top_up`: the unit-test top-up of 100
from a 1000-balance account. -/
theorem claim_C4_top_up_witness :
    ((BankAccount.mk "12345" "Test User" 1000 0).top_up_mobile 100).1 = none ∧
    (((BankAccount.mk "12345" "Test User" 1000 0).top_up_mobile 100).2).balance = 1000 - 100 ∧
    (((BankAccount.mk "12345" "Test User" 1000 0).top_up_mobile 100).2).mobile_balance =
      0 + 100 :=
  claim_C4_top_up (BankAccount.mk "12345" "Test User" 1000 0) 100 (by norm_num) (by norm_num)

end Banking

namespace Banking

/-- Claim C5 as stated is false: `BankAccount.__init__` accepts any initial
balance (it is "non-negative by convention" only), and on the account
`⟨"A", "H", -5, 0⟩` a deposit of 3 followed by a withdrawal of 3 raises
`InsufficientFundsError` (3 > -2) and leaves the balance at -2, not at the
original -5. -/
theorem claim_C5_counterexample :
    ((((BankAccount.mk "A" "H" (-5) 0).deposit 3).2).withdraw 3).1 =
        some BankingException.insufficientFunds ∧
    (((((BankAccount.mk "A" "H" (-5) 0).deposit 3).2).withdraw 3).2).balance ≠
        (BankAccount.mk "A" "H" (-5) 0).balance := by
  norm_num [BankAccount.deposit, BankAccount.withdraw]

/-- Claim C5 amended: for every account whose cash balance is non-negative
and every positive amount, `deposit` followed by `withdraw` of the same
amount succeeds and restores the original balance exactly. -/
theorem claim_C5_round_trip (a : BankAccount) (amount : ℚ)
    (hbal : 0 ≤ a.balance) (hpos : 0 < amount) :
    (a.deposit amount).1 = none ∧
    (((a.deposit amount).2).withdraw amount).1 = none ∧
    ((((a.deposit amount).2).withdraw amount).2).balance = a.balance := by
  have h1 : ¬ amount ≤ 0 := not_le.2 hpos
  have h2 : ¬ (a.balance + amount < amount) := not_lt.2 (by linarith)
  simp [BankAccount.deposit, BankAccount.withdraw, h1, h2]

/-- Concrete instantiation of `claim_C5_round_trip`: the test account at 1000
with a round trip of 500. -/
theorem claim_C5_round_trip_witness :
    ((BankAccount.mk "12345" "Test User" 1000 0).deposit 500).1 = none ∧
    ((((BankAccount.mk "12345" "Test User" 1000 0).deposit 500).2).withdraw 500).1 = none ∧
    (((((BankAccount.mk "12345" "Test User" 1000 0).deposit 500).2).withdraw 500).2).balance =
      1000 :=
  claim_C5_round_trip (BankAccount.mk "12345" "Test User" 1000 0) 500
    (by norm_num) (by norm_num)

/-- Claim C7 as stated is false: in `BankAccount.transfer` the
`isinstance(target_account, BankAccount)` check (line 86) comes before the
`amount <= 0` check (line 88), so a call with a non-account target and a
negative amount raises `InvalidAccountError`, not `InvalidAmountError`. -/
theorem claim_C7_counterexample :
    ((BankAccount.mk "12345" "Test User" 1000 0).transfer TransferArg.notAccount (-5)).1 =
        some BankingException.invalidAccount ∧
    ((BankAccount.mk "12345" "Test User" 1000 0).transfer TransferArg.notAccount (-5)).1 ≠
        some BankingException.invalidAmount := by
  refine ⟨rfl, ?_⟩
  simp [BankAccount.transfer]

/-- Claim C7 amended: for every transfer call in which `amount ≤ 0` and the
target is not a valid `BankAccount` reference, the error raised is
`InvalidAccountError` — the invalid-target check precedes the
`InvalidAmountError` check. -/
theorem claim_C7_invalid_target_first (self : BankAccount) (amount : ℚ)
    (h : amount ≤ 0) :
    self.transfer TransferArg.notAccount amount =
      (some BankingException.invalidAccount, self, TransferArg.notAccount) := rfl

/-- Concrete instantiation of `claim_C7_invalid_target_first` at amount -5. -/
theorem claim_C7_invalid_target_first_witness :
    (BankAccount.mk "12345" "Test User" 1000 0).transfer TransferArg.notAccount (-5) =
      (some BankingException.invalidAccount, BankAccount.mk "12345" "Test User" 1000 0,
        TransferArg.notAccount) :=
  claim_C7_invalid_target_first (BankAccount.mk "12345" "Test User" 1000 0) (-5)
    (by norm_num)

/-- Claim C8 as stated is false for an account whose balance is exactly zero
(a reachable state: the constructor defaults to 0.0 and a full withdrawal
drains the balance to 0): `withdraw` with `amount = balance = 0` raises
`InvalidAmountError` instead of succeeding. -/
theorem claim_C8_counterexample :
    ((BankAccount.mk "A" "H" 0 0).withdraw (BankAccount.mk "A" "H" 0 0).balance).1 =
      some BankingException.invalidAmount := by
  norm_num [BankAccount.withdraw]

/-- Claim C8 amended: for every account with positive cash balance, each of
`withdraw`, `transfer` and `top_up_mobile` with amount exactly equal to the
current balance succeeds (the `InsufficientFundsError` guard is strict) and
leaves the cash balance at exactly zero. -/
theorem claim_C8_drain_to_zero (a t : BankAccount) (h : 0 < a.balance) :
    ((a.withdraw a.balance).1 = none ∧ ((a.withdraw a.balance).2).balance = 0) ∧
    (∃ s' t', a.transfer (TransferArg.account t) a.balance =
        (none, s', TransferArg.account t') ∧ s'.balance = 0) ∧
    ((a.top_up_mobile a.balance).1 = none ∧
      ((a.top_up_mobile a.balance).2).balance = 0) := by
  have h1 : ¬ a.balance ≤ 0 := not_le.2 h
  have h2 : ¬ a.balance < a.balance := lt_irrefl _
  refine ⟨?_, ⟨{ a with balance := a.balance - a.balance },
              { t with balance := t.balance + a.balance }, ?_, ?_⟩, ?_⟩
  · simp [BankAccount.withdraw, h1, h2]
  · simp [BankAccount.transfer, h1, h2]
  · simp
  · simp [BankAccount.top_up_mobile, h1, h2]

/-- Concrete instantiation of `claim_C8_drain_to_zero` at balance 1000. -/
theorem claim_C8_drain_to_zero_witness :
    (((BankAccount.mk "12345" "Test User" 1000 0).withdraw 1000).1 = none ∧
      (((BankAccount.mk "12345" "Test User" 1000 0).withdraw 1000).2).balance = 0) ∧
    (∃ s' t', (BankAccount.mk "12345" "Test User" 1000 0).transfer
        (TransferArg.account (BankAccount.mk "67890" "Target User" 500 0)) 1000 =
          (none, s', TransferArg.account t') ∧ s'.balance = 0) ∧
    (((BankAccount.mk "12345" "Test User" 1000 0).top_up_mobile 1000).1 = none ∧
      (((BankAccount.mk "12345" "Test User" 1000 0).top_up_mobile 1000).2).balance = 0) :=
  claim_C8_drain_to_zero (BankAccount.mk "12345" "Test User" 1000 0)
    (BankAccount.mk "67890" "Target User" 500 0) (by norm_num)

end Banking

namespace Banking

/-- Claim C6: `process_user_input` resolves the source account first, so an
unknown account number raises `InvalidAccountError` regardless of the choice
string; and on an existing account any choice outside
{balance, deposit, withdraw, transfer, top_up} raises `InvalidChoiceError`. -/
theorem claim_C6_dispatch (accounts : Accounts) (choice account_number : String)
    (amount : ℚ) (target_account : String) :
    (accounts account_number = none →
      process_user_input accounts choice account_number amount target_account =
        (some BankingException.invalidAccount, accounts)) ∧
    (∀ a, accounts account_number = some a →
      choice ≠ "balance" → choice ≠ "deposit" → choice ≠ "withdraw" →
      choice ≠ "transfer" → choice ≠ "top_up" →
      process_user_input accounts choice account_number amount target_account =
        (some BankingException.invalidChoice, accounts)) := by
  constructor
  · intro h
    simp [process_user_input, get_account, h]
  · intro a ha h1 h2 h3 h4 h5
    simp [process_user_input, get_account, ha, h1, h2, h3, h4, h5]

/-- Concrete instantiation of `claim_C6_dispatch`: the unknown account "9999"
with choice "withdraw", and the unknown choice "bogus" on account "1001". -/
theorem claim_C6_dispatch_witness :
    process_user_input initAccounts "withdraw" "9999" 5 "" =
      (some BankingException.invalidAccount, initAccounts) ∧
    process_user_input initAccounts "bogus" "1001" 0 "" =
      (some BankingException.invalidChoice, initAccounts) :=
  ⟨(claim_C6_dispatch initAccounts "withdraw" "9999" 5 "").1 rfl,
   (claim_C6_dispatch initAccounts "bogus" "1001" 0 "").2
     ⟨"1001", "Alice Smith", 1000, 0⟩ rfl
     (by decide) (by decide) (by decide) (by decide) (by decide)⟩

/-- Claim C10: a dispatcher-level transfer whose target account number equals
the source account number succeeds when `0 < amount ≤ balance`, and the
debit and the credit hit the same dict object, so its balance is unchanged
and every other ledger entry is untouched. -/
theorem claim_C10_self_transfer (accounts : Accounts) (account_number : String)
    (amount : ℚ) (a : BankAccount) (ha : accounts account_number = some a)
    (hpos : 0 < amount) (hle : amount ≤ a.balance) :
    (process_user_input accounts "transfer" account_number amount account_number).1 =
      none ∧
    ((process_user_input accounts "transfer" account_number amount account_number).2
        account_number).map BankAccount.balance = some a.balance ∧
    ∀ k, k ≠ account_number →
      (process_user_input accounts "transfer" account_number amount account_number).2 k =
        accounts k := by
  refine ⟨?_, ?_, ?_⟩
  · simp [process_user_input, get_account, ha, not_le.2 hpos, not_lt.2 hle]
  · simp [process_user_input, get_account, ha, not_le.2 hpos, not_lt.2 hle, updBal]
  · intro k hk
    simp [process_user_input, get_account, ha, not_le.2 hpos, not_lt.2 hle, updBal, hk]

/-- Concrete instantiation of `claim_C10_self_transfer`: account "1001"
transfers 300 to itself; its balance stays 1000 and "1002" is untouched. -/
theorem claim_C10_self_transfer_witness :
    (process_user_input initAccounts "transfer" "1001" 300 "1001").1 = none ∧
    ((process_user_input initAccounts "transfer" "1001" 300 "1001").2 "1001").map
      BankAccount.balance = some 1000 ∧
    (process_user_input initAccounts "transfer" "1001" 300 "1001").2 "1002" =
      initAccounts "1002" :=
  have h := claim_C10_self_transfer initAccounts "1001" 300
    ⟨"1001", "Alice Smith", 1000, 0⟩ rfl (by norm_num) (by norm_num)
  ⟨h.1, h.2.1, h.2.2 "1002" (by decide)⟩

end Banking

namespace Banking

/-- Claim C1: every dispatched operation is atomic — if it raises any error
the ledger is returned exactly as it was (no partial mutation, since every
raise in the source happens before any field write), and if it succeeds the
stated balance changes of the chosen operation are all committed. -/
theorem claim_C1_atomicity (accounts : Accounts) (choice account_number : String)
    (amount : ℚ) (target_account : String) :
    ((process_user_input accounts choice account_number amount target_account).1.isSome →
      (process_user_input accounts choice account_number amount target_account).2 =
        accounts) ∧
    (∀ a, accounts account_number = some a →
      (choice = "deposit" → 0 < amount →
        process_user_input accounts choice account_number amount target_account =
          (none, setAccount accounts account_number
                   { a with balance := a.balance + amount })) ∧
      (choice = "withdraw" → 0 < amount → amount ≤ a.balance →
        process_user_input accounts choice account_number amount target_account =
          (none, setAccount accounts account_number
                   { a with balance := a.balance - amount })) ∧
      (choice = "transfer" → ∀ b, accounts target_account = some b →
        0 < amount → amount ≤ a.balance →
        process_user_input accounts choice account_number amount target_account =
          (none, updBal (updBal accounts account_number (fun x => x - amount))
                   target_account (fun x => x + amount))) ∧
      (choice = "top_up" → 0 < amount → amount ≤ a.balance →
        process_user_input accounts choice account_number amount target_account =
          (none, setAccount accounts account_number
                   { a with balance := a.balance - amount,
                            mobile_balance := a.mobile_balance + amount }))) := by
  constructor
  · cases h : accounts account_number with
    | none => simp [process_user_input, get_account, h]
    | some a =>
      cases ht : accounts target_account with
      | none =>
        simp only [process_user_input, get_account, h, ht]
        split_ifs <;> simp
      | some b =>
        simp only [process_user_input, get_account, h, ht]
        split_ifs <;> simp
  · intro a ha
    refine ⟨?_, ?_, ?_, ?_⟩
    · intro hc hpos
      subst hc
      simp [process_user_input, get_account, ha, not_le.2 hpos]
    · intro hc hpos hle
      subst hc
      simp [process_user_input, get_account, ha, not_le.2 hpos, not_lt.2 hle]
    · intro hc b hb hpos hle
      subst hc
      simp [process_user_input, get_account, ha, hb, not_le.2 hpos, not_lt.2 hle]
    · intro hc hpos hle
      subst hc
      simp [process_user_input, get_account, ha, not_le.2 hpos, not_lt.2 hle]

/-- Concrete instantiation of `claim_C1_atomicity`: a rejected deposit of -5
leaves the seeded ledger untouched, and an accepted deposit of 500 commits
the stated balance change. -/
theorem claim_C1_atomicity_witness :
    (process_user_input initAccounts "deposit" "1001" (-5) "").2 = initAccounts ∧
    process_user_input initAccounts "deposit" "1001" 500 "" =
      (none, setAccount initAccounts "1001" ⟨"1001", "Alice Smith", 1000 + 500, 0⟩) :=
  ⟨(claim_C1_atomicity initAccounts "deposit" "1001" (-5) "").1
     (by repeat first
           | simp [process_user_input, get_account, initAccounts]
           | norm_num),
   ((claim_C1_atomicity initAccounts "deposit" "1001" 500 "").2
     ⟨"1001", "Alice Smith", 1000, 0⟩ rfl).1 rfl (by norm_num)⟩

end Banking

namespace Banking

/-- Claim C9: every dispatched operation mutates only what its contract
states — at every ledger key the presence of an entry, its account number
and its holder name are preserved by every call; the mobile-credit balance
is preserved by every call except a top-up; deposit, withdraw and top-up
leave every key other than the source untouched; and transfer leaves every
key other than the source and the target untouched. -/
theorem claim_C9_frame (accounts : Accounts) (choice account_number : String)
    (amount : ℚ) (target_account : String) (k : String) :
    ((process_user_input accounts choice account_number amount target_account).2 k).isSome =
      (accounts k).isSome ∧
    ((process_user_input accounts choice account_number amount target_account).2 k).map
        BankAccount.account_number = (accounts k).map BankAccount.account_number ∧
    ((process_user_input accounts choice account_number amount target_account).2 k).map
        BankAccount.account_holder = (accounts k).map BankAccount.account_holder ∧
    (choice ≠ "top_up" →
      ((process_user_input accounts choice account_number amount target_account).2 k).map
          BankAccount.mobile_balance = (accounts k).map BankAccount.mobile_balance) ∧
    ((choice = "deposit" ∨ choice = "withdraw" ∨ choice = "top_up") →
      k ≠ account_number →
      (process_user_input accounts choice account_number amount target_account).2 k =
        accounts k) ∧
    (choice = "transfer" → k ≠ account_number → k ≠ target_account →
      (process_user_input accounts choice account_number amount target_account).2 k =
        accounts k) := by
  cases h : accounts account_number with
  | none => simp [process_user_input, get_account, h]
  | some a =>
    cases ht : accounts target_account with
    | none =>
      simp only [process_user_input, get_account, h, ht]
      split_ifs <;> by_cases hk : k = account_number <;> simp_all [setAccount, updBal]
    | some b =>
      simp only [process_user_input, get_account, h, ht]
      split_ifs <;> by_cases hk : k = account_number <;>
        by_cases hk2 : k = target_account <;> simp_all [setAccount, updBal]

/-- Concrete instantiation of `claim_C9_frame`: a top-up on "1001" leaves
"1002" untouched, and a deposit on "1001" keeps its mobile credit. -/
theorem claim_C9_frame_witness :
    (process_user_input initAccounts "top_up" "1001" 100 "").2 "1002" =
      initAccounts "1002" ∧
    ((process_user_input initAccounts "deposit" "1001" 500 "").2 "1001").map
      BankAccount.mobile_balance = (initAccounts "1001").map BankAccount.mobile_balance :=
  ⟨(claim_C9_frame initAccounts "top_up" "1001" 100 "" "1002").2.2.2.2.1
     (Or.inr (Or.inr rfl)) (by decide),
   (claim_C9_frame initAccounts "deposit" "1001" 500 "" "1001").2.2.2.1 (by decide)⟩

end Banking
